import Mathlib

/-!
Verification of the ONVIF event-parser module
(`homeassistant/components/onvif/parsers.py`).

The Python module is a flat table of topic-keyed parser functions.  Each
parser receives a device uid and a nested SOAP-derived message object, reads
named or positional "simple items" out of it, and either returns a structured
`Event` or swallows `AttributeError`/`KeyError` into a `None` result.

The embedding below models Python attribute access on possibly-absent
attributes, list indexing, `float()` conversion and the per-parser
`try/except (AttributeError, KeyError)` wrapper explicitly in an
`Except PyErr` monad, so that which exceptions are caught and which propagate
is part of the model.  Numeric values are modelled with exact rationals.
-/

namespace Onvif

/-- The Python exception kinds that can arise in this module. -/
inductive PyErr where
  | attributeError
  | keyError
  | indexError
  | valueError
deriving DecidableEq

/-- A name/value pair inside a notification payload.  Either attribute may be
absent on a schema-deviant message; accessing an absent attribute raises
`AttributeError` in Python. -/
structure SimpleItem where
  Name : Option String
  Value : Option String
deriving DecidableEq

/-- The `Source` / `Data` sub-object: carries a `SimpleItem` list attribute,
which may itself be absent. -/
structure ItemList where
  SimpleItem : Option (List SimpleItem)
deriving DecidableEq

/-- The `msg.Message._value_1` payload: `Source` and `Data` attributes. -/
structure Value1 where
  Source : Option ItemList
  Data : Option ItemList
deriving DecidableEq

/-- The `msg.Message` object, carrying the `_value_1` attribute. -/
structure MessageBody where
  value_1 : Option Value1
deriving DecidableEq

/-- A notification message object as handed to a parser. -/
structure Msg where
  Message : Option MessageBody
deriving DecidableEq

/-- Modelled from the spec: a parsed timestamp (the spec only requires that a
valid datetime value is carried through and converted to local time; the
concrete datetime type lives in `homeassistant.util.dt`, outside `src/`). -/
structure PyDateTime where
  year : Nat
  month : Nat
  day : Nat
  hour : Nat
  minute : Nat
  second : Nat
  tzlocal : Bool
deriving DecidableEq

/-- The payload carried by an Event: boolean, integer, string, datetime or
Python `None`, depending on the parser (spec section 3). -/
inductive EventValue where
  | vb : Bool → EventValue
  | vi : Int → EventValue
  | vs : String → EventValue
  | vdt : PyDateTime → EventValue
  | vnone : EventValue
deriving DecidableEq

/-- Modelled from the spec: the `Event` value object of `onvif/models.py`
(not under `src/`), with the field list and defaults of spec section 3:
optional fields default to absent, `value` to `None`, and `entity_enabled`
to `true`. -/
structure Event where
  uid : String
  name : String
  platform : String
  device_class : Option String := none
  unit : Option String := none
  value : EventValue := EventValue.vnone
  entity_category : Option String := none
  entity_enabled : Bool := true
deriving DecidableEq

instance {ε α : Type} [DecidableEq ε] [DecidableEq α] :
    DecidableEq (Except ε α) := fun x y =>
  match x, y with
  | Except.error a, Except.error b =>
    if h : a = b then Decidable.isTrue (by rw [h])
    else Decidable.isFalse (fun hc => h (Except.error.inj hc))
  | Except.error _, Except.ok _ =>
    Decidable.isFalse (fun hc => Except.noConfusion hc)
  | Except.ok _, Except.error _ =>
    Decidable.isFalse (fun hc => Except.noConfusion hc)
  | Except.ok a, Except.ok b =>
    if h : a = b then Decidable.isTrue (by rw [h])
    else Decidable.isFalse (fun hc => h (Except.ok.inj hc))

/-- Python attribute access: reading an absent attribute raises
`AttributeError`. -/
def getAttr {α : Type} : Option α → Except PyErr α
  | none => Except.error PyErr.attributeError
  | some a => Except.ok a

/-- Python `lst[0]`: indexing an empty list raises `IndexError`. -/
def listIndex0 {α : Type} : List α → Except PyErr α
  | [] => Except.error PyErr.indexError
  | a :: _ => Except.ok a

/-- The `try: ... except (AttributeError, KeyError): return None` wrapper
shared by every parser: exactly those two exception kinds are converted to a
`None` result; any other exception propagates. -/
def catchAttrKey (x : Except PyErr (Option Event)) : Except PyErr (Option Event) :=
  match x with
  | Except.error PyErr.attributeError => Except.ok none
  | Except.error PyErr.keyError => Except.ok none
  | other => other

/-- The access chain `msg.Message._value_1` performed first by every parser. -/
def Msg.getValue1 (m : Msg) : Except PyErr Value1 := do
  let mb ← getAttr m.Message
  getAttr mb.value_1

/-- The anchor read `value_1.Source.SimpleItem[0].Value`. -/
def Value1.sourceAnchor (v : Value1) : Except PyErr String := do
  let src ← getAttr v.Source
  let items ← getAttr src.SimpleItem
  let it ← listIndex0 items
  getAttr it.Value

/-- The anchor read `value_1.Data.SimpleItem[0].Value`. -/
def Value1.dataAnchor (v : Value1) : Except PyErr String := do
  let dat ← getAttr v.Data
  let items ← getAttr dat.SimpleItem
  let it ← listIndex0 items
  getAttr it.Value

/-- The list read `value_1.Source.SimpleItem` used by the loop-style parsers. -/
def Value1.sourceItems (v : Value1) : Except PyErr (List SimpleItem) := do
  let src ← getAttr v.Source
  getAttr src.SimpleItem

/-- Semantics of a Python `for` loop whose body may raise: fold the body over
the list, stopping at the first exception. -/
def pyFor {σ : Type} (body : σ → SimpleItem → Except PyErr σ) :
    σ → List SimpleItem → Except PyErr σ
  | acc, [] => Except.ok acc
  | acc, it :: rest => (body acc it).bind (fun acc2 => pyFor body acc2 rest)

/-- `VIDEO_SOURCE_MAPPING`: known-incorrect source-token spellings. -/
def VIDEO_SOURCE_MAPPING : List (String × String) :=
  [("vsconf", "VideoSourceToken")]

/-- Python `dict.get(key, default)` over a small association list. -/
def dictGet (m : List (String × String)) (k dflt : String) : String :=
  (m.lookup k).getD dflt

/-- `_normalize_video_source`: map known-incorrect spellings to the canonical
token, leaving every other value unchanged. -/
def _normalize_video_source (source : String) : String :=
  dictGet VIDEO_SOURCE_MAPPING source source

/-- Modelled from the spec: `homeassistant.util.dt.parse_datetime` (not under
`src/`).  Per the spec, datetime parsing either yields a datetime, fails
benignly on non-datetime text, or raises `ValueError` on sentinel values with
out-of-range components such as `0000-00-00T00:00:00Z`. -/
def parse_datetime (s : String) : Except PyErr (Option PyDateTime) :=
  match s.data with
  | [y1, y2, y3, y4, '-', mo1, mo2, '-', d1, d2, 'T',
     h1, h2, ':', mi1, mi2, ':', se1, se2, 'Z'] =>
    if ([y1, y2, y3, y4, mo1, mo2, d1, d2, h1, h2, mi1, mi2, se1, se2].all
        Char.isDigit) then
      let dv : Char → Nat := fun c => c.toNat - 48
      let year := ((dv y1 * 10 + dv y2) * 10 + dv y3) * 10 + dv y4
      let month := dv mo1 * 10 + dv mo2
      let day := dv d1 * 10 + dv d2
      let hour := dv h1 * 10 + dv h2
      let minute := dv mi1 * 10 + dv mi2
      let second := dv se1 * 10 + dv se2
      if 1 ≤ month ∧ month ≤ 12 ∧ 1 ≤ day ∧ day ≤ 31 ∧
          hour ≤ 23 ∧ minute ≤ 59 ∧ second ≤ 59 then
        Except.ok (some ⟨year, month, day, hour, minute, second, false⟩)
      else
        Except.error PyErr.valueError
    else
      Except.ok none
  | _ => Except.ok none

/-- Modelled from the spec: `homeassistant.util.dt.as_local` (not under
`src/`), converting a valid parse result to local time. -/
def as_local (dt : PyDateTime) : PyDateTime :=
  { dt with tzlocal := true }

/-- `local_datetime_or_none`: convert strings to datetimes, returning `None`
both when parsing raises `ValueError` and when it yields no datetime. -/
def local_datetime_or_none (value : String) : Except PyErr (Option PyDateTime) :=
  match parse_datetime value with
  | Except.error PyErr.valueError => Except.ok none
  | Except.error e => Except.error e
  | Except.ok none => Except.ok none
  | Except.ok (some ret) => Except.ok (some (as_local ret))

/-- Carry an optional datetime into the Event value slot (Python passes the
datetime-or-`None` directly). -/
def dtValue : Option PyDateTime → EventValue
  | none => EventValue.vnone
  | some dt => EventValue.vdt dt

/-- Value of a decimal digit character. -/
def digitVal (c : Char) : Nat := c.toNat - 48

/-- Decimal value of a digit string. -/
def natOfDigits (l : List Char) : Nat :=
  l.foldl (fun a c => a * 10 + digitVal c) 0

/-- Split a character list at the first decimal point, if any. -/
def splitDot : List Char → List Char × Option (List Char)
  | [] => ([], none)
  | '.' :: rest => ([], some rest)
  | c :: rest =>
    let p := splitDot rest
    (c :: p.1, p.2)

/-- Python `float()` on the decimal strings this module encounters, modelled
with exact rationals: optional sign, integer digits, optional fraction.
A second decimal point or any non-digit makes the conversion fail, as in
Python. -/
def parseFloatQ (s : String) : Option ℚ :=
  let core : List Char → Option ℚ := fun l =>
    match splitDot l with
    | (a, none) =>
      if 0 < a.length ∧ a.all Char.isDigit then
        some ((natOfDigits a : ℚ))
      else none
    | (a, some b) =>
      if (0 < a.length ∨ 0 < b.length) ∧ a.all Char.isDigit ∧
          b.all Char.isDigit then
        some ((natOfDigits a : ℚ) +
          (natOfDigits b : ℚ) / ((10 : ℚ) ^ b.length))
      else none
  match s.data with
  | '-' :: rest => (core rest).map (fun q => -q)
  | l => core l

/-- Python `float()` raising `ValueError` on non-numeric text. -/
def pyFloat (s : String) : Except PyErr ℚ :=
  match parseFloatQ s with
  | some q => Except.ok q
  | none => Except.error PyErr.valueError

/-- Python `int()` on a float: truncation toward zero. -/
def pyTrunc (q : ℚ) : Int :=
  if q < 0 then -(Rat.floor (-q)) else Rat.floor q

/-- Modelled from the spec: the string rendering `str(value_1)` that the
parsers interpolate into every `uid` ("message identity", spec section 3).
The external SOAP library renders the object content deterministically; the
concrete layout is irrelevant to the claims, only that it is a fixed
deterministic rendering of the nested field values. -/
def reprOptStr : Option String → String
  | none => "None"
  | some s => "'" ++ s ++ "'"

/-- Rendering of one simple item, see `reprOptStr`. -/
def reprSimpleItem (it : SimpleItem) : String :=
  "SimpleItem(" ++ reprOptStr it.Name ++ "," ++ reprOptStr it.Value ++ ")"

/-- Rendering of an item list, see `reprOptStr`. -/
def reprItems : List SimpleItem → String
  | [] => ""
  | it :: rest => reprSimpleItem it ++ ";" ++ reprItems rest

/-- Rendering of an optional item list, see `reprOptStr`. -/
def reprOptItems : Option (List SimpleItem) → String
  | none => "None"
  | some l => "[" ++ reprItems l ++ "]"

/-- Rendering of a `Source`/`Data` sub-object, see `reprOptStr`. -/
def reprItemList (il : ItemList) : String :=
  "ItemList(" ++ reprOptItems il.SimpleItem ++ ")"

/-- Rendering of an optional sub-object, see `reprOptStr`. -/
def reprOptItemList : Option ItemList → String
  | none => "None"
  | some il => reprItemList il

/-- Rendering of the whole `_value_1` payload, see `reprOptStr`. -/
def reprV1 (v : Value1) : String :=
  "Message(Source=" ++ reprOptItemList v.Source ++
    ",Data=" ++ reprOptItemList v.Data ++ ")"

/-- Topic `tns1:VideoSource/MotionAlarm`. -/
def async_parse_motion_alarm (uid : String) (msg : Msg) :
    Except PyErr (Option Event) :=
  catchAttrKey (do
    let value_1 ← msg.getValue1
    let source ← value_1.sourceAnchor
    let dval ← value_1.dataAnchor
    pure (some
      { uid := uid ++ "_" ++ reprV1 value_1 ++ "_" ++ source,
        name := "Motion Alarm",
        platform := "binary_sensor",
        device_class := some "motion",
        unit := none,
        value := EventValue.vb (dval == "true") }))

/-- Topics `tns1:VideoSource/ImageTooBlurry/*` (Analytics, Imaging and
Recording service variants). -/
def async_parse_image_too_blurry (uid : String) (msg : Msg) :
    Except PyErr (Option Event) :=
  catchAttrKey (do
    let value_1 ← msg.getValue1
    let source ← value_1.sourceAnchor
    let dval ← value_1.dataAnchor
    pure (some
      { uid := uid ++ "_" ++ reprV1 value_1 ++ "_" ++ source,
        name := "Image Too Blurry",
        platform := "binary_sensor",
        device_class := some "problem",
        unit := none,
        value := EventValue.vb (dval == "true"),
        entity_category := some "diagnostic" }))

/-- Topics `tns1:VideoSource/ImageTooDark/*`. -/
def async_parse_image_too_dark (uid : String) (msg : Msg) :
    Except PyErr (Option Event) :=
  catchAttrKey (do
    let value_1 ← msg.getValue1
    let source ← value_1.sourceAnchor
    let dval ← value_1.dataAnchor
    pure (some
      { uid := uid ++ "_" ++ reprV1 value_1 ++ "_" ++ source,
        name := "Image Too Dark",
        platform := "binary_sensor",
        device_class := some "problem",
        unit := none,
        value := EventValue.vb (dval == "true"),
        entity_category := some "diagnostic" }))

/-- Topics `tns1:VideoSource/ImageTooBright/*`. -/
def async_parse_image_too_bright (uid : String) (msg : Msg) :
    Except PyErr (Option Event) :=
  catchAttrKey (do
    let value_1 ← msg.getValue1
    let source ← value_1.sourceAnchor
    let dval ← value_1.dataAnchor
    pure (some
      { uid := uid ++ "_" ++ reprV1 value_1 ++ "_" ++ source,
        name := "Image Too Bright",
        platform := "binary_sensor",
        device_class := some "problem",
        unit := none,
        value := EventValue.vb (dval == "true"),
        entity_category := some "diagnostic" }))

/-- Topics `tns1:VideoSource/GlobalSceneChange/*`. -/
def async_parse_scene_change (uid : String) (msg : Msg) :
    Except PyErr (Option Event) :=
  catchAttrKey (do
    let value_1 ← msg.getValue1
    let source ← value_1.sourceAnchor
    let dval ← value_1.dataAnchor
    pure (some
      { uid := uid ++ "_" ++ reprV1 value_1 ++ "_" ++ source,
        name := "Global Scene Change",
        platform := "binary_sensor",
        device_class := some "problem",
        unit := none,
        value := EventValue.vb (dval == "true") }))

/-- Topic `tns1:AudioAnalytics/Audio/DetectedSound`: scans the source items
for the audio source, audio analytics and rule tokens. -/
def async_parse_detected_sound (uid : String) (msg : Msg) :
    Except PyErr (Option Event) :=
  catchAttrKey (do
    let value_1 ← msg.getValue1
    let items ← value_1.sourceItems
    let acc ← pyFor
      (fun acc source => do
        let nm ← getAttr source.Name
        let audio_source ← if nm == "AudioSourceConfigurationToken" then
            getAttr source.Value
          else pure acc.1
        let audio_analytics ← if nm == "AudioAnalyticsConfigurationToken" then
            getAttr source.Value
          else pure acc.2.1
        let rule ← if nm == "Rule" then getAttr source.Value else pure acc.2.2
        pure (audio_source, audio_analytics, rule))
      ("", "", "") items
    let dval ← value_1.dataAnchor
    pure (some
      { uid := uid ++ "_" ++ reprV1 value_1 ++ "_" ++ acc.1 ++ "_" ++
          acc.2.1 ++ "_" ++ acc.2.2,
        name := "Detected Sound",
        platform := "binary_sensor",
        device_class := some "sound",
        unit := none,
        value := EventValue.vb (dval == "true") }))

/-- Topic `tns1:RuleEngine/FieldDetector/ObjectsInside`: video-token loop,
normalizing the video source token. -/
def async_parse_field_detector (uid : String) (msg : Msg) :
    Except PyErr (Option Event) :=
  catchAttrKey (do
    let value_1 ← msg.getValue1
    let items ← value_1.sourceItems
    let acc ← pyFor
      (fun acc source => do
        let nm ← getAttr source.Name
        let video_source ← if nm == "VideoSourceConfigurationToken" then do
            let v ← getAttr source.Value
            pure (_normalize_video_source v)
          else pure acc.1
        let video_analytics ← if nm == "VideoAnalyticsConfigurationToken" then
            getAttr source.Value
          else pure acc.2.1
        let rule ← if nm == "Rule" then getAttr source.Value else pure acc.2.2
        pure (video_source, video_analytics, rule))
      ("", "", "") items
    let dval ← value_1.dataAnchor
    pure (some
      { uid := uid ++ "_" ++ reprV1 value_1 ++ "_" ++ acc.1 ++ "_" ++
          acc.2.1 ++ "_" ++ acc.2.2,
        name := "Field Detection",
        platform := "binary_sensor",
        device_class := some "motion",
        unit := none,
        value := EventValue.vb (dval == "true") }))

/-- Topic `tns1:RuleEngine/CellMotionDetector/Motion`: video-token loop,
normalizing the video source token. -/
def async_parse_cell_motion_detector (uid : String) (msg : Msg) :
    Except PyErr (Option Event) :=
  catchAttrKey (do
    let value_1 ← msg.getValue1
    let items ← value_1.sourceItems
    let acc ← pyFor
      (fun acc source => do
        let nm ← getAttr source.Name
        let video_source ← if nm == "VideoSourceConfigurationToken" then do
            let v ← getAttr source.Value
            pure (_normalize_video_source v)
          else pure acc.1
        let video_analytics ← if nm == "VideoAnalyticsConfigurationToken" then
            getAttr source.Value
          else pure acc.2.1
        let rule ← if nm == "Rule" then getAttr source.Value else pure acc.2.2
        pure (video_source, video_analytics, rule))
      ("", "", "") items
    let dval ← value_1.dataAnchor
    pure (some
      { uid := uid ++ "_" ++ reprV1 value_1 ++ "_" ++ acc.1 ++ "_" ++
          acc.2.1 ++ "_" ++ acc.2.2,
        name := "Cell Motion Detection",
        platform := "binary_sensor",
        device_class := some "motion",
        unit := none,
        value := EventValue.vb (dval == "true") }))

/-- Topic `tns1:RuleEngine/MotionRegionDetector/Motion`: video-token loop;
the data value is truthy when it is `"1"` or `"true"`. -/
def async_parse_motion_region_detector (uid : String) (msg : Msg) :
    Except PyErr (Option Event) :=
  catchAttrKey (do
    let value_1 ← msg.getValue1
    let items ← value_1.sourceItems
    let acc ← pyFor
      (fun acc source => do
        let nm ← getAttr source.Name
        let video_source ← if nm == "VideoSourceConfigurationToken" then do
            let v ← getAttr source.Value
            pure (_normalize_video_source v)
          else pure acc.1
        let video_analytics ← if nm == "VideoAnalyticsConfigurationToken" then
            getAttr source.Value
          else pure acc.2.1
        let rule ← if nm == "Rule" then getAttr source.Value else pure acc.2.2
        pure (video_source, video_analytics, rule))
      ("", "", "") items
    let dval ← value_1.dataAnchor
    pure (some
      { uid := uid ++ "_" ++ reprV1 value_1 ++ "_" ++ acc.1 ++ "_" ++
          acc.2.1 ++ "_" ++ acc.2.2,
        name := "Motion Region Detection",
        platform := "binary_sensor",
        device_class := some "motion",
        unit := none,
        value := EventValue.vb (dval == "1" || dval == "true") }))

/-- Topic `tns1:RuleEngine/TamperDetector/Tamper`: video-token loop,
normalizing the video source token. -/
def async_parse_tamper_detector (uid : String) (msg : Msg) :
    Except PyErr (Option Event) :=
  catchAttrKey (do
    let value_1 ← msg.getValue1
    let items ← value_1.sourceItems
    let acc ← pyFor
      (fun acc source => do
        let nm ← getAttr source.Name
        let video_source ← if nm == "VideoSourceConfigurationToken" then do
            let v ← getAttr source.Value
            pure (_normalize_video_source v)
          else pure acc.1
        let video_analytics ← if nm == "VideoAnalyticsConfigurationToken" then
            getAttr source.Value
          else pure acc.2.1
        let rule ← if nm == "Rule" then getAttr source.Value else pure acc.2.2
        pure (video_source, video_analytics, rule))
      ("", "", "") items
    let dval ← value_1.dataAnchor
    pure (some
      { uid := uid ++ "_" ++ reprV1 value_1 ++ "_" ++ acc.1 ++ "_" ++
          acc.2.1 ++ "_" ++ acc.2.2,
        name := "Tamper Detection",
        platform := "binary_sensor",
        device_class := some "problem",
        unit := none,
        value := EventValue.vb (dval == "true"),
        entity_category := some "diagnostic" }))

/-- Topic `tns1:RuleEngine/MyRuleDetector/DogCatDetect`: scans for the item
named `Source`, normalizing its value. -/
def async_parse_dog_cat_detector (uid : String) (msg : Msg) :
    Except PyErr (Option Event) :=
  catchAttrKey (do
    let value_1 ← msg.getValue1
    let items ← value_1.sourceItems
    let video_source ← pyFor
      (fun acc source => do
        let nm ← getAttr source.Name
        if nm == "Source" then do
          let v ← getAttr source.Value
          pure (_normalize_video_source v)
        else pure acc)
      "" items
    let dval ← value_1.dataAnchor
    pure (some
      { uid := uid ++ "_" ++ reprV1 value_1 ++ "_" ++ video_source,
        name := "Pet Detection",
        platform := "binary_sensor",
        device_class := some "motion",
        unit := none,
        value := EventValue.vb (dval == "true") }))

/-- Topic `tns1:RuleEngine/MyRuleDetector/VehicleDetect`. -/
def async_parse_vehicle_detector (uid : String) (msg : Msg) :
    Except PyErr (Option Event) :=
  catchAttrKey (do
    let value_1 ← msg.getValue1
    let items ← value_1.sourceItems
    let video_source ← pyFor
      (fun acc source => do
        let nm ← getAttr source.Name
        if nm == "Source" then do
          let v ← getAttr source.Value
          pure (_normalize_video_source v)
        else pure acc)
      "" items
    let dval ← value_1.dataAnchor
    pure (some
      { uid := uid ++ "_" ++ reprV1 value_1 ++ "_" ++ video_source,
        name := "Vehicle Detection",
        platform := "binary_sensor",
        device_class := some "motion",
        unit := none,
        value := EventValue.vb (dval == "true") }))

/-- Topic `tns1:RuleEngine/MyRuleDetector/PeopleDetect`. -/
def async_parse_person_detector (uid : String) (msg : Msg) :
    Except PyErr (Option Event) :=
  catchAttrKey (do
    let value_1 ← msg.getValue1
    let items ← value_1.sourceItems
    let video_source ← pyFor
      (fun acc source => do
        let nm ← getAttr source.Name
        if nm == "Source" then do
          let v ← getAttr source.Value
          pure (_normalize_video_source v)
        else pure acc)
      "" items
    let dval ← value_1.dataAnchor
    pure (some
      { uid := uid ++ "_" ++ reprV1 value_1 ++ "_" ++ video_source,
        name := "Person Detection",
        platform := "binary_sensor",
        device_class := some "motion",
        unit := none,
        value := EventValue.vb (dval == "true") }))

/-- Topic `tns1:RuleEngine/MyRuleDetector/FaceDetect`. -/
def async_parse_face_detector (uid : String) (msg : Msg) :
    Except PyErr (Option Event) :=
  catchAttrKey (do
    let value_1 ← msg.getValue1
    let items ← value_1.sourceItems
    let video_source ← pyFor
      (fun acc source => do
        let nm ← getAttr source.Name
        if nm == "Source" then do
          let v ← getAttr source.Value
          pure (_normalize_video_source v)
        else pure acc)
      "" items
    let dval ← value_1.dataAnchor
    pure (some
      { uid := uid ++ "_" ++ reprV1 value_1 ++ "_" ++ video_source,
        name := "Face Detection",
        platform := "binary_sensor",
        device_class := some "motion",
        unit := none,
        value := EventValue.vb (dval == "true") }))

/-- Topic `tns1:RuleEngine/MyRuleDetector/Visitor`. -/
def async_parse_visitor_detector (uid : String) (msg : Msg) :
    Except PyErr (Option Event) :=
  catchAttrKey (do
    let value_1 ← msg.getValue1
    let items ← value_1.sourceItems
    let video_source ← pyFor
      (fun acc source => do
        let nm ← getAttr source.Name
        if nm == "Source" then do
          let v ← getAttr source.Value
          pure (_normalize_video_source v)
        else pure acc)
      "" items
    let dval ← value_1.dataAnchor
    pure (some
      { uid := uid ++ "_" ++ reprV1 value_1 ++ "_" ++ video_source,
        name := "Visitor Detection",
        platform := "binary_sensor",
        device_class := some "occupancy",
        unit := none,
        value := EventValue.vb (dval == "true") }))

/-- Topic `tns1:Device/Trigger/DigitalInput`. -/
def async_parse_digital_input (uid : String) (msg : Msg) :
    Except PyErr (Option Event) :=
  catchAttrKey (do
    let value_1 ← msg.getValue1
    let source ← value_1.sourceAnchor
    let dval ← value_1.dataAnchor
    pure (some
      { uid := uid ++ "_" ++ reprV1 value_1 ++ "_" ++ source,
        name := "Digital Input",
        platform := "binary_sensor",
        device_class := none,
        unit := none,
        value := EventValue.vb (dval == "true") }))

/-- Topic `tns1:Device/Trigger/Relay`: truthy only on the literal
`"active"`. -/
def async_parse_relay (uid : String) (msg : Msg) :
    Except PyErr (Option Event) :=
  catchAttrKey (do
    let value_1 ← msg.getValue1
    let source ← value_1.sourceAnchor
    let dval ← value_1.dataAnchor
    pure (some
      { uid := uid ++ "_" ++ reprV1 value_1 ++ "_" ++ source,
        name := "Relay Triggered",
        platform := "binary_sensor",
        device_class := none,
        unit := none,
        value := EventValue.vb (dval == "active") }))

/-- Topic `tns1:Device/HardwareFailure/StorageFailure`. -/
def async_parse_storage_failure (uid : String) (msg : Msg) :
    Except PyErr (Option Event) :=
  catchAttrKey (do
    let value_1 ← msg.getValue1
    let source ← value_1.sourceAnchor
    let dval ← value_1.dataAnchor
    pure (some
      { uid := uid ++ "_" ++ reprV1 value_1 ++ "_" ++ source,
        name := "Storage Failure",
        platform := "binary_sensor",
        device_class := some "problem",
        unit := none,
        value := EventValue.vb (dval == "true"),
        entity_category := some "diagnostic" }))

/-- Topic `tns1:Monitoring/ProcessorUsage`: parse the data value as a float,
rescale fractional presentation to a percentage, truncate to an integer. -/
def async_parse_processor_usage (uid : String) (msg : Msg) :
    Except PyErr (Option Event) :=
  catchAttrKey (do
    let value_1 ← msg.getValue1
    let dval ← value_1.dataAnchor
    let usage ← pyFloat dval
    let usage := if usage ≤ 1 then usage * 100 else usage
    pure (some
      { uid := uid ++ "_" ++ reprV1 value_1,
        name := "Processor Usage",
        platform := "sensor",
        device_class := none,
        unit := some "percent",
        value := EventValue.vi (pyTrunc usage),
        entity_category := some "diagnostic" }))

/-- Topic `tns1:Monitoring/OperatingTime/LastReboot`. -/
def async_parse_last_reboot (uid : String) (msg : Msg) :
    Except PyErr (Option Event) :=
  catchAttrKey (do
    let value_1 ← msg.getValue1
    let dval ← value_1.dataAnchor
    let date_time ← local_datetime_or_none dval
    pure (some
      { uid := uid ++ "_" ++ reprV1 value_1,
        name := "Last Reboot",
        platform := "sensor",
        device_class := some "timestamp",
        unit := none,
        value := dtValue date_time,
        entity_category := some "diagnostic" }))

/-- Topic `tns1:Monitoring/OperatingTime/LastReset`: disabled by default. -/
def async_parse_last_reset (uid : String) (msg : Msg) :
    Except PyErr (Option Event) :=
  catchAttrKey (do
    let value_1 ← msg.getValue1
    let dval ← value_1.dataAnchor
    let date_time ← local_datetime_or_none dval
    pure (some
      { uid := uid ++ "_" ++ reprV1 value_1,
        name := "Last Reset",
        platform := "sensor",
        device_class := some "timestamp",
        unit := none,
        value := dtValue date_time,
        entity_category := some "diagnostic",
        entity_enabled := false }))

/-- Topic `tns1:Monitoring/Backup/Last`: disabled by default. -/
def async_parse_backup_last (uid : String) (msg : Msg) :
    Except PyErr (Option Event) :=
  catchAttrKey (do
    let value_1 ← msg.getValue1
    let dval ← value_1.dataAnchor
    let date_time ← local_datetime_or_none dval
    pure (some
      { uid := uid ++ "_" ++ reprV1 value_1,
        name := "Last Backup",
        platform := "sensor",
        device_class := some "timestamp",
        unit := none,
        value := dtValue date_time,
        entity_category := some "diagnostic",
        entity_enabled := false }))

/-- Topic `tns1:Monitoring/OperatingTime/LastClockSynchronization`: disabled
by default. -/
def async_parse_last_clock_sync (uid : String) (msg : Msg) :
    Except PyErr (Option Event) :=
  catchAttrKey (do
    let value_1 ← msg.getValue1
    let dval ← value_1.dataAnchor
    let date_time ← local_datetime_or_none dval
    pure (some
      { uid := uid ++ "_" ++ reprV1 value_1,
        name := "Last Clock Synchronization",
        platform := "sensor",
        device_class := some "timestamp",
        unit := none,
        value := dtValue date_time,
        entity_category := some "diagnostic",
        entity_enabled := false }))

/-- Topic `tns1:RecordingConfig/JobState`: truthy only on the literal
`"Active"`. -/
def async_parse_jobstate (uid : String) (msg : Msg) :
    Except PyErr (Option Event) :=
  catchAttrKey (do
    let value_1 ← msg.getValue1
    let source ← value_1.sourceAnchor
    let dval ← value_1.dataAnchor
    pure (some
      { uid := uid ++ "_" ++ reprV1 value_1 ++ "_" ++ source,
        name := "Recording Job State",
        platform := "binary_sensor",
        device_class := none,
        unit := none,
        value := EventValue.vb (dval == "Active"),
        entity_category := some "diagnostic" }))

/-- Topic `tns1:RuleEngine/LineDetector/Crossed`: video-token loop that does
NOT normalize the video source token; the raw data value is the payload. -/
def async_parse_linedetector_crossed (uid : String) (msg : Msg) :
    Except PyErr (Option Event) :=
  catchAttrKey (do
    let value_1 ← msg.getValue1
    let items ← value_1.sourceItems
    let acc ← pyFor
      (fun acc source => do
        let nm ← getAttr source.Name
        let video_source ← if nm == "VideoSourceConfigurationToken" then
            getAttr source.Value
          else pure acc.1
        let video_analytics ← if nm == "VideoAnalyticsConfigurationToken" then
            getAttr source.Value
          else pure acc.2.1
        let rule ← if nm == "Rule" then getAttr source.Value else pure acc.2.2
        pure (video_source, video_analytics, rule))
      ("", "", "") items
    let dval ← value_1.dataAnchor
    pure (some
      { uid := uid ++ "_" ++ reprV1 value_1 ++ "_" ++ acc.1 ++ "_" ++
          acc.2.1 ++ "_" ++ acc.2.2,
        name := "Line Detector Crossed",
        platform := "sensor",
        device_class := none,
        unit := none,
        value := EventValue.vs dval,
        entity_category := some "diagnostic" }))

/-- Topic `tns1:RuleEngine/CountAggregation/Counter`: video-token loop with
normalization; the raw data value is the payload. -/
def async_parse_count_aggregation_counter (uid : String) (msg : Msg) :
    Except PyErr (Option Event) :=
  catchAttrKey (do
    let value_1 ← msg.getValue1
    let items ← value_1.sourceItems
    let acc ← pyFor
      (fun acc source => do
        let nm ← getAttr source.Name
        let video_source ← if nm == "VideoSourceConfigurationToken" then do
            let v ← getAttr source.Value
            pure (_normalize_video_source v)
          else pure acc.1
        let video_analytics ← if nm == "VideoAnalyticsConfigurationToken" then
            getAttr source.Value
          else pure acc.2.1
        let rule ← if nm == "Rule" then getAttr source.Value else pure acc.2.2
        pure (video_source, video_analytics, rule))
      ("", "", "") items
    let dval ← value_1.dataAnchor
    pure (some
      { uid := uid ++ "_" ++ reprV1 value_1 ++ "_" ++ acc.1 ++ "_" ++
          acc.2.1 ++ "_" ++ acc.2.2,
        name := "Count Aggregation Counter",
        platform := "sensor",
        device_class := none,
        unit := none,
        value := EventValue.vs dval,
        entity_category := some "diagnostic" }))

/-- The type of a registered parser. -/
abbrev ParserFun := String → Msg → Except PyErr (Option Event)

/-- Modelled from the spec: the `PARSERS` registry built by the
`@PARSERS.register(topic)` decorators (the `Registry` class lives in
`homeassistant.util.decorator`, outside `src/`).  Per spec section 4.1 it is
an immutable exact-match table from topic string to parser, allowing several
topics to share one parser.  The entries below are exactly the decorator
registrations of the source file, in source order. -/
def PARSERS : List (String × ParserFun) :=
  [ ("tns1:VideoSource/MotionAlarm", async_parse_motion_alarm),
    ("tns1:VideoSource/ImageTooBlurry/AnalyticsService", async_parse_image_too_blurry),
    ("tns1:VideoSource/ImageTooBlurry/ImagingService", async_parse_image_too_blurry),
    ("tns1:VideoSource/ImageTooBlurry/RecordingService", async_parse_image_too_blurry),
    ("tns1:VideoSource/ImageTooDark/AnalyticsService", async_parse_image_too_dark),
    ("tns1:VideoSource/ImageTooDark/ImagingService", async_parse_image_too_dark),
    ("tns1:VideoSource/ImageTooDark/RecordingService", async_parse_image_too_dark),
    ("tns1:VideoSource/ImageTooBright/AnalyticsService", async_parse_image_too_bright),
    ("tns1:VideoSource/ImageTooBright/ImagingService", async_parse_image_too_bright),
    ("tns1:VideoSource/ImageTooBright/RecordingService", async_parse_image_too_bright),
    ("tns1:VideoSource/GlobalSceneChange/AnalyticsService", async_parse_scene_change),
    ("tns1:VideoSource/GlobalSceneChange/ImagingService", async_parse_scene_change),
    ("tns1:VideoSource/GlobalSceneChange/RecordingService", async_parse_scene_change),
    ("tns1:AudioAnalytics/Audio/DetectedSound", async_parse_detected_sound),
    ("tns1:RuleEngine/FieldDetector/ObjectsInside", async_parse_field_detector),
    ("tns1:RuleEngine/CellMotionDetector/Motion", async_parse_cell_motion_detector),
    ("tns1:RuleEngine/MotionRegionDetector/Motion", async_parse_motion_region_detector),
    ("tns1:RuleEngine/TamperDetector/Tamper", async_parse_tamper_detector),
    ("tns1:RuleEngine/MyRuleDetector/DogCatDetect", async_parse_dog_cat_detector),
    ("tns1:RuleEngine/MyRuleDetector/VehicleDetect", async_parse_vehicle_detector),
    ("tns1:RuleEngine/MyRuleDetector/PeopleDetect", async_parse_person_detector),
    ("tns1:RuleEngine/MyRuleDetector/FaceDetect", async_parse_face_detector),
    ("tns1:RuleEngine/MyRuleDetector/Visitor", async_parse_visitor_detector),
    ("tns1:Device/Trigger/DigitalInput", async_parse_digital_input),
    ("tns1:Device/Trigger/Relay", async_parse_relay),
    ("tns1:Device/HardwareFailure/StorageFailure", async_parse_storage_failure),
    ("tns1:Monitoring/ProcessorUsage", async_parse_processor_usage),
    ("tns1:Monitoring/OperatingTime/LastReboot", async_parse_last_reboot),
    ("tns1:Monitoring/OperatingTime/LastReset", async_parse_last_reset),
    ("tns1:Monitoring/Backup/Last", async_parse_backup_last),
    ("tns1:Monitoring/OperatingTime/LastClockSynchronization", async_parse_last_clock_sync),
    ("tns1:RecordingConfig/JobState", async_parse_jobstate),
    ("tns1:RuleEngine/LineDetector/Crossed", async_parse_linedetector_crossed),
    ("tns1:RuleEngine/CountAggregation/Counter", async_parse_count_aggregation_counter) ]

/-- Modelled from the spec: `Registry` lookup is exact string match with no
wildcard or prefix matching (spec section 4.1). -/
def lookupParser (topic : String) : Option ParserFun :=
  PARSERS.lookup topic

/-! ### Canonical well-shaped messages used in the theorem statements -/

/-- A well-shaped payload with a single positional source item (named
`Source`, as the pet/person-style parsers expect) and one data item. -/
def mkAnchorV1 (sv d : String) : Value1 :=
  { Source := some { SimpleItem := some [{ Name := some "Source", Value := some sv }] },
    Data := some { SimpleItem := some [{ Name := some "State", Value := some d }] } }

/-- Message wrapping of `mkAnchorV1`. -/
def mkAnchorMsg (sv d : String) : Msg :=
  { Message := some { value_1 := some (mkAnchorV1 sv d) } }

/-- A well-shaped payload carrying the three analytics tokens read by the
rule-discriminated parsers, plus one data item. -/
def mkTokenV1 (vs va r d : String) : Value1 :=
  { Source := some { SimpleItem := some (
      [ { Name := some "VideoSourceConfigurationToken", Value := some vs },
        { Name := some "VideoAnalyticsConfigurationToken", Value := some va },
        { Name := some "Rule", Value := some r } ]) },
    Data := some { SimpleItem := some [{ Name := some "State", Value := some d }] } }

/-- Message wrapping of `mkTokenV1`. -/
def mkTokenMsg (vs va r d : String) : Msg :=
  { Message := some { value_1 := some (mkTokenV1 vs va r d) } }

/-- A well-shaped payload for the data-only parsers (processor usage and the
datetime parsers), which never touch `Source`. -/
def mkDataV1 (d : String) : Value1 :=
  { Source := none,
    Data := some { SimpleItem := some [{ Name := none, Value := some d }] } }

/-- Message wrapping of `mkDataV1`. -/
def mkDataMsg (d : String) : Msg :=
  { Message := some { value_1 := some (mkDataV1 d) } }

/-- A message whose `Source.SimpleItem` list is present but empty: the anchor
read `Source.SimpleItem[0]` raises `IndexError` on it. -/
def msgEmptySource : Msg :=
  { Message := some { value_1 := some (
      { Source := some { SimpleItem := some [] },
        Data := some { SimpleItem := some [{ Name := some "State", Value := some "true" }] } } : Value1) } }

/-- A message lacking the `Message` attribute entirely. -/
def msgNoMessage : Msg := { Message := none }

/-- Boolean test: does the second list occur at the head of the first? -/
def startsWithL : List Char → List Char → Bool
  | _, [] => true
  | [], _ :: _ => false
  | a :: as, b :: bs => a == b && startsWithL as bs

/-- Boolean substring test on character lists, used to state the spec's
"the uid contains the token" claims. -/
def containsL : List Char → List Char → Bool
  | [], n => n.isEmpty
  | h :: t, n => startsWithL (h :: t) n || containsL t n

/-! ### General lemmas -/

/-- Reduction of monadic bind on an `Except` error. -/
@[simp] theorem except_bind_error {ε α β : Type} (e : ε)
    (k : α → Except ε β) : (Except.error e >>= k) = Except.error e := rfl

/-- Reduction of monadic bind on an `Except` success. -/
@[simp] theorem except_bind_okv {ε α β : Type} (a : α)
    (k : α → Except ε β) : (Except.ok a >>= k) = k a := rfl

/-- Reduction of functorial map on an `Except` error. -/
@[simp] theorem except_map_error {ε α β : Type} (e : ε)
    (f : α → β) : (f <$> (Except.error e : Except ε α)) = Except.error e := rfl

/-- Reduction of functorial map on an `Except` success. -/
@[simp] theorem except_map_okv {ε α β : Type} (a : α)
    (f : α → β) : (f <$> (Except.ok a : Except ε α)) = Except.ok (f a) := rfl

/-- Appending equal-length suffixes to strings is injective on the suffix. -/
theorem strAppendInjRight (p1 p2 s1 s2 : String)
    (h : p1 ++ s1 = p2 ++ s2) (hl : s1.length = s2.length) : s1 = s2 := by
  have hd := congrArg String.data h
  simp only [String.data_append] at hd
  exact String.ext (List.append_inj' hd hl).2

/-! ### Claim theorems -/

/-- C10: video-source normalization is idempotent: applying
`_normalize_video_source` twice yields the same result as applying it once,
because its only rewritten output, `VideoSourceToken`, is not itself a key of
`VIDEO_SOURCE_MAPPING`. -/
theorem c10_normalize_idempotent (s : String) :
    _normalize_video_source (_normalize_video_source s) =
      _normalize_video_source s := by
  by_cases h : s = "vsconf"
  · subst h; rfl
  · have hb : (s == "vsconf") = false := by simp [h]
    have h1 : _normalize_video_source s = s := by
      simp [_normalize_video_source, dictGet, VIDEO_SOURCE_MAPPING,
        List.lookup, hb]
    rw [h1]
    exact h1

/-- C9: the recording-job-state parser reports `true` exactly when the data
item's raw string equals `"Active"` (capital A); in particular `"active"`,
`"true"` and `"1"` all yield `false`. -/
theorem c9_jobstate_literal :
    (∀ dev sv s, ∃ e,
      async_parse_jobstate dev (mkAnchorMsg sv s) = Except.ok (some e) ∧
        e.value = EventValue.vb (s == "Active"))
    ∧ (∀ dev sv, ∃ e,
      async_parse_jobstate dev (mkAnchorMsg sv "Active") = Except.ok (some e) ∧
        e.value = EventValue.vb true)
    ∧ (∀ dev sv, ∃ e,
      async_parse_jobstate dev (mkAnchorMsg sv "active") = Except.ok (some e) ∧
        e.value = EventValue.vb false)
    ∧ (∀ dev sv, ∃ e,
      async_parse_jobstate dev (mkAnchorMsg sv "true") = Except.ok (some e) ∧
        e.value = EventValue.vb false)
    ∧ (∀ dev sv, ∃ e,
      async_parse_jobstate dev (mkAnchorMsg sv "1") = Except.ok (some e) ∧
        e.value = EventValue.vb false) :=
  ⟨fun _ _ _ => ⟨_, rfl, rfl⟩,
   fun _ _ => ⟨_, rfl, rfl⟩,
   fun _ _ => ⟨_, rfl, rfl⟩,
   fun _ _ => ⟨_, rfl, rfl⟩,
   fun _ _ => ⟨_, rfl, rfl⟩⟩

/-- C4: boolean coercion is per-topic — motion-alarm, image-too-blurry and
tamper parsers report `true` exactly on the raw string `"true"`; the relay
parser exactly on `"active"` (so `"true"` yields `false` there); the
motion-region-detector parser exactly on `"1"` or `"true"`. -/
theorem c4_boolean_coercion_per_topic :
    (∀ dev sv s, ∃ e,
      async_parse_motion_alarm dev (mkAnchorMsg sv s) = Except.ok (some e) ∧
        e.value = EventValue.vb (s == "true"))
    ∧ (∀ dev sv s, ∃ e,
      async_parse_image_too_blurry dev (mkAnchorMsg sv s) = Except.ok (some e) ∧
        e.value = EventValue.vb (s == "true"))
    ∧ (∀ dev vs va r s, ∃ e,
      async_parse_tamper_detector dev (mkTokenMsg vs va r s) = Except.ok (some e) ∧
        e.value = EventValue.vb (s == "true"))
    ∧ (∀ dev sv s, ∃ e,
      async_parse_relay dev (mkAnchorMsg sv s) = Except.ok (some e) ∧
        e.value = EventValue.vb (s == "active"))
    ∧ (∀ dev sv, ∃ e,
      async_parse_relay dev (mkAnchorMsg sv "true") = Except.ok (some e) ∧
        e.value = EventValue.vb false)
    ∧ (∀ dev vs va r s, ∃ e,
      async_parse_motion_region_detector dev (mkTokenMsg vs va r s) =
          Except.ok (some e) ∧
        e.value = EventValue.vb (s == "1" || s == "true")) :=
  ⟨fun _ _ _ => ⟨_, rfl, rfl⟩,
   fun _ _ _ => ⟨_, rfl, rfl⟩,
   fun _ _ _ _ _ => ⟨_, rfl, rfl⟩,
   fun _ _ _ => ⟨_, rfl, rfl⟩,
   fun _ _ => ⟨_, rfl, rfl⟩,
   fun _ _ _ _ _ => ⟨_, rfl, rfl⟩⟩

/-- C1 fails as stated: the per-parser handler catches only `AttributeError`
and `KeyError`, so an empty `SimpleItem` list (Python `IndexError` on
`SimpleItem[0]`) and a non-numeric processor-usage string (Python
`ValueError` from `float()`) escape the parser instead of yielding null. -/
theorem c1_counterexample :
    async_parse_motion_alarm "dev" msgEmptySource =
        Except.error PyErr.indexError
    ∧ async_parse_processor_usage "dev" (mkDataMsg "abc") =
        Except.error PyErr.valueError :=
  ⟨rfl, rfl⟩

/-- C1 amended: every registered parser converts the `AttributeError` arising
from a missing attribute into a null result — shown here for a message whose
`Message` attribute is absent — but an empty `SimpleItem` list raises
`IndexError` and a non-numeric processor-usage string raises `ValueError`,
and those two escape the parser uncaught. -/
theorem c1_attribute_errors_swallowed :
    ∀ pr ∈ PARSERS, ∀ dev (m : Msg), m.Message = none →
      pr.2 dev m = Except.ok none := by
  intro pr hpr dev m h
  fin_cases hpr <;>
    simp [async_parse_motion_alarm, async_parse_image_too_blurry,
      async_parse_image_too_dark, async_parse_image_too_bright,
      async_parse_scene_change, async_parse_detected_sound,
      async_parse_field_detector, async_parse_cell_motion_detector,
      async_parse_motion_region_detector, async_parse_tamper_detector,
      async_parse_dog_cat_detector, async_parse_vehicle_detector,
      async_parse_person_detector, async_parse_face_detector,
      async_parse_visitor_detector, async_parse_digital_input,
      async_parse_relay, async_parse_storage_failure,
      async_parse_processor_usage, async_parse_last_reboot,
      async_parse_last_reset, async_parse_backup_last,
      async_parse_last_clock_sync, async_parse_jobstate,
      async_parse_linedetector_crossed, async_parse_count_aggregation_counter,
      catchAttrKey, Msg.getValue1, getAttr, h, Except.bind]

/-- C1 witness: the motion-alarm parser returns null on a message lacking the
`Message` attribute. -/
theorem c1_witness :
    async_parse_motion_alarm "dev" msgNoMessage = Except.ok none :=
  c1_attribute_errors_swallowed
    ("tns1:VideoSource/MotionAlarm", async_parse_motion_alarm)
    (by unfold PARSERS; exact List.mem_cons_self _ _)
    "dev" msgNoMessage rfl

/-- C2 fails as stated: the line-detector-crossed parser reads the
`VideoSourceConfigurationToken` source item but does not apply
`_normalize_video_source`, so the token `"vsconf"` reaches the uid unchanged
and `"VideoSourceToken"` does not appear in it. -/
theorem c2_counterexample :
    (async_parse_linedetector_crossed "dev"
        (mkTokenMsg "vsconf" "va" "r1" "42")).map
      (Option.map (fun e =>
        (containsL e.uid.data "VideoSourceToken".data,
         containsL e.uid.data "vsconf".data))) =
    Except.ok (some (false, true)) := by
  set_option maxRecDepth 4096 in decide

/-- C2 amended: every video-source-token-reading parser except
`async_parse_linedetector_crossed` passes the token through
`_normalize_video_source` before embedding it in the uid (so `"vsconf"`
becomes `"VideoSourceToken"` and every other value passes through
unchanged), while the line-detector parser embeds the raw token. -/
theorem c2_normalization_per_topic :
    (∀ dev vs va r d, ∃ e,
      async_parse_cell_motion_detector dev (mkTokenMsg vs va r d) =
          Except.ok (some e) ∧
        e.uid = dev ++ "_" ++ reprV1 (mkTokenV1 vs va r d) ++ "_" ++
          _normalize_video_source vs ++ "_" ++ va ++ "_" ++ r)
    ∧ (∀ dev vs va r d, ∃ e,
      async_parse_field_detector dev (mkTokenMsg vs va r d) =
          Except.ok (some e) ∧
        e.uid = dev ++ "_" ++ reprV1 (mkTokenV1 vs va r d) ++ "_" ++
          _normalize_video_source vs ++ "_" ++ va ++ "_" ++ r)
    ∧ (∀ dev vs va r d, ∃ e,
      async_parse_motion_region_detector dev (mkTokenMsg vs va r d) =
          Except.ok (some e) ∧
        e.uid = dev ++ "_" ++ reprV1 (mkTokenV1 vs va r d) ++ "_" ++
          _normalize_video_source vs ++ "_" ++ va ++ "_" ++ r)
    ∧ (∀ dev vs va r d, ∃ e,
      async_parse_tamper_detector dev (mkTokenMsg vs va r d) =
          Except.ok (some e) ∧
        e.uid = dev ++ "_" ++ reprV1 (mkTokenV1 vs va r d) ++ "_" ++
          _normalize_video_source vs ++ "_" ++ va ++ "_" ++ r)
    ∧ (∀ dev vs va r d, ∃ e,
      async_parse_count_aggregation_counter dev (mkTokenMsg vs va r d) =
          Except.ok (some e) ∧
        e.uid = dev ++ "_" ++ reprV1 (mkTokenV1 vs va r d) ++ "_" ++
          _normalize_video_source vs ++ "_" ++ va ++ "_" ++ r)
    ∧ (∀ dev vs d, ∃ e,
      async_parse_person_detector dev (mkAnchorMsg vs d) =
          Except.ok (some e) ∧
        e.uid = dev ++ "_" ++ reprV1 (mkAnchorV1 vs d) ++ "_" ++
          _normalize_video_source vs)
    ∧ (∀ dev vs va r d, ∃ e,
      async_parse_linedetector_crossed dev (mkTokenMsg vs va r d) =
          Except.ok (some e) ∧
        e.uid = dev ++ "_" ++ reprV1 (mkTokenV1 vs va r d) ++ "_" ++
          vs ++ "_" ++ va ++ "_" ++ r)
    ∧ _normalize_video_source "vsconf" = "VideoSourceToken"
    ∧ (∀ s, s ≠ "vsconf" → _normalize_video_source s = s) := by
  refine ⟨fun _ _ _ _ _ => ⟨_, rfl, rfl⟩, fun _ _ _ _ _ => ⟨_, rfl, rfl⟩,
    fun _ _ _ _ _ => ⟨_, rfl, rfl⟩, fun _ _ _ _ _ => ⟨_, rfl, rfl⟩,
    fun _ _ _ _ _ => ⟨_, rfl, rfl⟩, fun _ _ _ => ⟨_, rfl, rfl⟩,
    fun _ _ _ _ _ => ⟨_, rfl, rfl⟩, rfl, ?_⟩
  intro s h
  have hb : (s == "vsconf") = false := by simp [h]
  simp [_normalize_video_source, dictGet, VIDEO_SOURCE_MAPPING,
    List.lookup, hb]

/-- C2 witness: a token other than `"vsconf"` is left unchanged by the
normalization. -/
theorem c2_witness :
    _normalize_video_source "Camera1Token" = "Camera1Token" :=
  c2_normalization_per_topic.2.2.2.2.2.2.2.2 "Camera1Token" (by decide)

/-- C7: looking up any registered topic succeeds; the three ImageTooBlurry
service-variant topics all map to the single parser
`async_parse_image_too_blurry`; lookup is exact-match only, so prefixes of
registered topics are not found. -/
theorem c7_registry_exact_lookup :
    (∀ pr ∈ PARSERS, (lookupParser pr.1).isSome = true)
    ∧ lookupParser "tns1:VideoSource/ImageTooBlurry/AnalyticsService" =
        some async_parse_image_too_blurry
    ∧ lookupParser "tns1:VideoSource/ImageTooBlurry/ImagingService" =
        some async_parse_image_too_blurry
    ∧ lookupParser "tns1:VideoSource/ImageTooBlurry/RecordingService" =
        some async_parse_image_too_blurry
    ∧ lookupParser "tns1:VideoSource/ImageTooBlurry" = none
    ∧ lookupParser "tns1:VideoSource" = none := by
  refine ⟨?_, rfl, rfl, rfl, rfl, rfl⟩
  intro pr hpr
  fin_cases hpr <;> rfl

/-- C7 witness: the first registered topic resolves to its parser. -/
theorem c7_witness :
    (lookupParser "tns1:VideoSource/MotionAlarm").isSome = true :=
  c7_registry_exact_lookup.1
    ("tns1:VideoSource/MotionAlarm", async_parse_motion_alarm)
    (by unfold PARSERS; exact List.mem_cons_self _ _)

/-- Evaluation of the float conversion on the spec's fractional example. -/
theorem parseFloatQ_042 : parseFloatQ "0.42" = some (21 / 50 : ℚ) := by
  have e1 : parseFloatQ "0.42" =
      some ((natOfDigits ['0'] : ℚ) +
        (natOfDigits ['4', '2'] : ℚ) / (10 : ℚ) ^ (['4', '2'].length)) := rfl
  rw [e1, show ((natOfDigits ['0'] : ℚ) +
      (natOfDigits ['4', '2'] : ℚ) / (10 : ℚ) ^ (['4', '2'].length)) =
      21 / 50 by
    norm_num [show natOfDigits ['0'] = 0 from rfl,
      show natOfDigits ['4', '2'] = 42 from rfl]]

/-- Evaluation of the float conversion on the spec's integral example. -/
theorem parseFloatQ_77 : parseFloatQ "77" = some (77 : ℚ) := by
  have e1 : parseFloatQ "77" = some ((natOfDigits ['7', '7'] : ℚ)) := rfl
  rw [e1, show ((natOfDigits ['7', '7'] : ℚ)) = 77 by
    norm_num [show natOfDigits ['7', '7'] = 77 from rfl]]

/-- C5: the processor-usage parser converts the data value with `float()`,
multiplies by 100 when the result is at most 1, and truncates to an integer;
in particular `"0.42"` yields 42 and `"77"` yields 77. -/
theorem c5_processor_usage_rescaling :
    (∀ dev s q, parseFloatQ s = some q →
      ∃ e, async_parse_processor_usage dev (mkDataMsg s) = Except.ok (some e) ∧
        e.value = EventValue.vi (pyTrunc (if q ≤ 1 then q * 100 else q)))
    ∧ (∀ dev,
      (async_parse_processor_usage dev (mkDataMsg "0.42")).map
        (Option.map Event.value) = Except.ok (some (EventValue.vi 42)))
    ∧ (∀ dev,
      (async_parse_processor_usage dev (mkDataMsg "77")).map
        (Option.map Event.value) = Except.ok (some (EventValue.vi 77))) := by
  have p1 : ∀ dev s q, parseFloatQ s = some q →
      ∃ e, async_parse_processor_usage dev (mkDataMsg s) = Except.ok (some e) ∧
        e.value = EventValue.vi (pyTrunc (if q ≤ 1 then q * 100 else q)) := by
    intro dev s q h
    simp only [async_parse_processor_usage, catchAttrKey, Msg.getValue1,
      Value1.dataAnchor, getAttr, listIndex0, mkDataMsg, mkDataV1, pyFloat, h,
      except_bind_okv, except_bind_error, except_map_okv, except_map_error]
    exact ⟨_, rfl, rfl⟩
  refine ⟨p1, ?_, ?_⟩
  · intro dev
    obtain ⟨e, he, hv⟩ := p1 dev "0.42" (21 / 50) parseFloatQ_042
    rw [he]
    simp only [Except.map, Option.map, hv]
    rw [if_pos (by norm_num : (21 / 50 : ℚ) ≤ 1),
      show (21 / 50 : ℚ) * 100 = 42 by norm_num,
      show pyTrunc (42 : ℚ) = 42 from rfl]
  · intro dev
    obtain ⟨e, he, hv⟩ := p1 dev "77" 77 parseFloatQ_77
    rw [he]
    simp only [Except.map, Option.map, hv]
    rw [if_neg (by norm_num : ¬((77 : ℚ) ≤ 1)),
      show pyTrunc (77 : ℚ) = 77 from rfl]

/-- C5 witness: the general rescaling statement instantiated at `"0.42"`. -/
theorem c5_witness :
    ∃ e, async_parse_processor_usage "dev" (mkDataMsg "0.42") =
        Except.ok (some e) ∧
      e.value = EventValue.vi (pyTrunc
        (if (21 / 50 : ℚ) ≤ 1 then (21 / 50 : ℚ) * 100 else (21 / 50 : ℚ))) :=
  c5_processor_usage_rescaling.1 "dev" "0.42" (21 / 50) parseFloatQ_042

/-- C6: each datetime parser (last-reboot, last-reset, last-backup,
last-clock-synchronization) still returns an Event when the data string
fails datetime parsing, with a null value field: the failure is benign and
the Event is not dropped. -/
theorem c6_datetime_failure_null_value :
    ∀ dev s, local_datetime_or_none s = Except.ok none →
      (∃ e, async_parse_last_reboot dev (mkDataMsg s) = Except.ok (some e) ∧
        e.value = EventValue.vnone)
      ∧ (∃ e, async_parse_last_reset dev (mkDataMsg s) = Except.ok (some e) ∧
        e.value = EventValue.vnone)
      ∧ (∃ e, async_parse_backup_last dev (mkDataMsg s) = Except.ok (some e) ∧
        e.value = EventValue.vnone)
      ∧ (∃ e, async_parse_last_clock_sync dev (mkDataMsg s) =
          Except.ok (some e) ∧ e.value = EventValue.vnone) := by
  intro dev s h
  refine ⟨?_, ?_, ?_, ?_⟩ <;>
    (simp only [async_parse_last_reboot, async_parse_last_reset,
       async_parse_backup_last, async_parse_last_clock_sync, catchAttrKey,
       Msg.getValue1, Value1.dataAnchor, getAttr, listIndex0, mkDataMsg,
       mkDataV1, h, dtValue, except_bind_okv, except_bind_error,
       except_map_okv, except_map_error]
     exact ⟨_, rfl, rfl⟩)

/-- C6 witness: the sentinel `0000-00-00T00:00:00Z` fails datetime parsing,
and the last-reboot parser still returns an Event with a null value. -/
theorem c6_witness :
    ∃ e, async_parse_last_reboot "dev" (mkDataMsg "0000-00-00T00:00:00Z") =
        Except.ok (some e) ∧ e.value = EventValue.vnone :=
  (c6_datetime_failure_null_value "dev" "0000-00-00T00:00:00Z" (by decide)).1

/-- C8: `entity_enabled` defaults to true on a freshly built Event; the
last-reset, last-backup and last-clock-synchronization parsers return Events
with `entity_enabled` false, while the last-reboot parser leaves the default
true. -/
theorem c8_entity_enabled_defaults :
    (∀ u n p,
      ({ uid := u, name := n, platform := p } : Event).entity_enabled = true)
    ∧ (∀ dev s dt, local_datetime_or_none s = Except.ok dt →
      ∃ e, async_parse_last_reset dev (mkDataMsg s) = Except.ok (some e) ∧
        e.entity_enabled = false)
    ∧ (∀ dev s dt, local_datetime_or_none s = Except.ok dt →
      ∃ e, async_parse_backup_last dev (mkDataMsg s) = Except.ok (some e) ∧
        e.entity_enabled = false)
    ∧ (∀ dev s dt, local_datetime_or_none s = Except.ok dt →
      ∃ e, async_parse_last_clock_sync dev (mkDataMsg s) =
          Except.ok (some e) ∧ e.entity_enabled = false)
    ∧ (∀ dev s dt, local_datetime_or_none s = Except.ok dt →
      ∃ e, async_parse_last_reboot dev (mkDataMsg s) = Except.ok (some e) ∧
        e.entity_enabled = true) := by
  refine ⟨fun u n p => rfl, ?_, ?_, ?_, ?_⟩ <;>
    (intro dev s dt h
     simp only [async_parse_last_reboot, async_parse_last_reset,
       async_parse_backup_last, async_parse_last_clock_sync, catchAttrKey,
       Msg.getValue1, Value1.dataAnchor, getAttr, listIndex0, mkDataMsg,
       mkDataV1, h, except_bind_okv, except_bind_error, except_map_okv,
       except_map_error]
     exact ⟨_, rfl, rfl⟩)

/-- C3: every registered parser is a pure function of device uid and message,
so identical inputs yield identical Events (hence identical uid strings); and
for the rule-discriminated cell-motion parser, two messages that differ only
in the Rule source-item value yield Events with different uid strings. -/
theorem c3_uid_determinism_and_rule_discrimination :
    (∀ pr ∈ PARSERS, ∀ dev (m1 m2 : Msg), m1 = m2 →
      pr.2 dev m1 = pr.2 dev m2)
    ∧ (∀ dev vs va r1 r2 d e1 e2, r1 ≠ r2 →
      async_parse_cell_motion_detector dev (mkTokenMsg vs va r1 d) =
        Except.ok (some e1) →
      async_parse_cell_motion_detector dev (mkTokenMsg vs va r2 d) =
        Except.ok (some e2) →
      e1.uid ≠ e2.uid) := by
  constructor
  · intro pr _ dev m1 m2 h
    rw [h]
  · intro dev vs va r1 r2 d e1 e2 hne h1 h2
    have c1 : async_parse_cell_motion_detector dev (mkTokenMsg vs va r1 d) =
        Except.ok (some
          { uid := dev ++ "_" ++ reprV1 (mkTokenV1 vs va r1 d) ++ "_" ++
              _normalize_video_source vs ++ "_" ++ va ++ "_" ++ r1,
            name := "Cell Motion Detection", platform := "binary_sensor",
            device_class := some "motion", unit := none,
            value := EventValue.vb (d == "true") }) := rfl
    have c2 : async_parse_cell_motion_detector dev (mkTokenMsg vs va r2 d) =
        Except.ok (some
          { uid := dev ++ "_" ++ reprV1 (mkTokenV1 vs va r2 d) ++ "_" ++
              _normalize_video_source vs ++ "_" ++ va ++ "_" ++ r2,
            name := "Cell Motion Detection", platform := "binary_sensor",
            device_class := some "motion", unit := none,
            value := EventValue.vb (d == "true") }) := rfl
    have he1 := Option.some.inj (Except.ok.inj (c1.symm.trans h1))
    have he2 := Option.some.inj (Except.ok.inj (c2.symm.trans h2))
    rw [← he1, ← he2]
    intro hu
    have hu' : dev ++ "_" ++ reprV1 (mkTokenV1 vs va r1 d) ++ "_" ++
        _normalize_video_source vs ++ "_" ++ va ++ "_" ++ r1 =
        dev ++ "_" ++ reprV1 (mkTokenV1 vs va r2 d) ++ "_" ++
        _normalize_video_source vs ++ "_" ++ va ++ "_" ++ r2 := hu
    have hlen := congrArg String.length hu'
    simp only [String.length_append, reprV1, mkTokenV1, reprOptItemList,
      reprItemList, reprOptItems, reprItems, reprSimpleItem,
      reprOptStr] at hlen
    have hr : r1.length = r2.length := by omega
    exact hne (strAppendInjRight _ _ _ _ hu' hr)

/-- C3 witness: two concrete cell-motion notifications differing only in the
Rule value receive different uids. -/
theorem c3_witness :
    ({ uid := "dev" ++ "_" ++ reprV1 (mkTokenV1 "vs" "va" "r1" "1") ++ "_" ++
        _normalize_video_source "vs" ++ "_" ++ "va" ++ "_" ++ "r1",
       name := "Cell Motion Detection", platform := "binary_sensor",
       device_class := some "motion", unit := none,
       value := EventValue.vb ("1" == "true") } : Event).uid ≠
    ({ uid := "dev" ++ "_" ++ reprV1 (mkTokenV1 "vs" "va" "r2" "1") ++ "_" ++
        _normalize_video_source "vs" ++ "_" ++ "va" ++ "_" ++ "r2",
       name := "Cell Motion Detection", platform := "binary_sensor",
       device_class := some "motion", unit := none,
       value := EventValue.vb ("1" == "true") } : Event).uid :=
  c3_uid_determinism_and_rule_discrimination.2 "dev" "vs" "va" "r1" "r2" "1"
    _ _ (by decide) rfl rfl

/-- C8 witness: on a concrete message the last-reset parser disables the
entity while the last-reboot parser leaves it enabled. -/
theorem c8_witness :
    (∃ e, async_parse_last_reset "dev" (mkDataMsg "x") = Except.ok (some e) ∧
      e.entity_enabled = false)
    ∧ (∃ e, async_parse_last_reboot "dev" (mkDataMsg "x") =
        Except.ok (some e) ∧ e.entity_enabled = true) :=
  ⟨c8_entity_enabled_defaults.2.1 "dev" "x" none (by decide),
   c8_entity_enabled_defaults.2.2.2.2 "dev" "x" none (by decide)⟩

end Onvif
